import Mathlib

/-!
Verification of the AI-Rooms backend's AI orchestration pipeline
(`app/ai/classifier.py`, `app/ai/gemini_client.py`, `app/services/rag_service.py`,
`app/ai/tool_executor.py`, `app/ai/chat_responder.py`, `app/ai/ai_coordinator.py`).

The Python code is shallowly embedded: strings are `List Char`, dictionaries are
association lists, Python `float` arithmetic is modelled over `ℚ` (with
`math.sqrt` passed in as an abstract function, constrained by hypotheses where a
claim needs exact square roots), exceptions are `Except`, and the external
Gemini model is an oracle script of proposed turns.  Every definition is
transcribed from the source file and line range named in its doc comment.
-/

/-! ## Generic Python string semantics -/

/-- Python `needle in hay` substring test on character lists. -/
def occursIn (needle : List Char) : List Char → Bool
  | [] => needle.isEmpty
  | c :: rest => needle.isPrefixOf (c :: rest) || occursIn needle rest

/-- Python `str.lower()` (the source only lowercases ASCII content). -/
def pyToLowerL (l : List Char) : List Char := l.map Char.toLower

/-- Python `str.split()` with no arguments: split on whitespace runs, dropping
empty fields. -/
def pyWords (l : List Char) : List (List Char) :=
  (l.splitOnP Char.isWhitespace).filter (fun w => ¬ w.isEmpty)

/-- Python `str.strip()`: drop leading and trailing whitespace. -/
def pyStripL (l : List Char) : List Char :=
  ((l.dropWhile Char.isWhitespace).reverse.dropWhile Char.isWhitespace).reverse

/-- Python dict `d.get(k)` on an association list. -/
def dictGet {β : Type} (d : List (List Char × β)) (k : List Char) : Option β :=
  (d.find? (fun p => p.1 = k)).map Prod.snd

/-- Python dict assignment `d[k] = v` on an association list
(overwrite in place, else append). -/
def dictSet {β : Type} (d : List (List Char × β)) (k : List Char) (v : β) :
    List (List Char × β) :=
  if d.any (fun p => p.1 = k) then d.map (fun p => if p.1 = k then (k, v) else p)
  else d ++ [(k, v)]

/-! ## Regular-expression semantics for `app/ai/classifier.py`

The classifier's rules are Python `re` patterns built from literal words,
`\s+`, `(...|...)` alternation, an optional group, `.*`, and `\b`.  They are
embedded with a small nondeterministic prefix-matcher: a pattern maps a
character list to the list of possible rests after a match, so alternation
and optional groups backtrack exactly as `re` does. -/

/-- Regex word character (`\w`): letters, digits, underscore. -/
def isWordChar (c : Char) : Bool := c.isAlphanum || c == '_'

/-- A nondeterministic prefix matcher: all possible unconsumed rests. -/
abbrev Rx := List Char → List (List Char)

/-- A literal run of characters. -/
def litR (w : List Char) : Rx := fun s =>
  if w.isPrefixOf s then [s.drop w.length] else []

/-- A literal given as a string. -/
def litS (w : String) : Rx := litR w.toList

/-- Regex `\s+`: one or more whitespace characters. -/
def wsR : Rx := fun s =>
  (List.range (s.takeWhile Char.isWhitespace).length).map (fun i => s.drop (i + 1))

/-- Sequential composition of two patterns. -/
def seqR (p q : Rx) : Rx := fun s => ((p s).map q).flatten

/-- Regex alternation `(p|q)`. -/
def altR (p q : Rx) : Rx := fun s => p s ++ q s

/-- Regex optional group `(p)?`. -/
def optR (p : Rx) : Rx := fun s => p s ++ [s]

/-- Alternation over literal words, e.g. `(is|are|was|were)`. -/
def anyWordR (ws : List String) : Rx := fun s =>
  (ws.map (fun w => litS w s)).flatten

/-- Regex `\b` placed after a word character: the next character must be a
non-word character or the end of input. -/
def boundR : Rx := fun s =>
  match s with
  | [] => [[]]
  | c :: rest => if isWordChar c then [] else [c :: rest]

/-- Regex `.*`: zero or more characters, none of which is a newline
(Python `.` does not match `\n`). -/
def dotStarR : Rx := fun s =>
  (List.range ((s.takeWhile (fun c => c ≠ '\n')).length + 1)).map (fun i => s.drop i)

/-- Does the pattern match starting exactly here? -/
def rxMatchesAt (p : Rx) (s : List Char) : Bool := !(p s).isEmpty

/-- Word-boundary condition before a match that begins with a word character:
start of string or a preceding non-word character. -/
def boundaryOK : Option Char → Bool
  | none => true
  | some c => !isWordChar c

/-- Driver for `re.search` of a pattern that begins with `\b` followed by a
word character: try every position, tracking the previous character for the
leading boundary. -/
def rxSearchBAux (p : Rx) : Option Char → List Char → Bool
  | prev, [] => boundaryOK prev && rxMatchesAt p []
  | prev, c :: rest =>
    (boundaryOK prev && rxMatchesAt p (c :: rest)) || rxSearchBAux p (some c) rest

/-- `re.search` for a pattern beginning with `\b`. -/
def rxSearchB (p : Rx) (s : List Char) : Bool := rxSearchBAux p none s

/-- `re.search` for a pattern with no leading `\b`: try every position. -/
def rxSearch (p : Rx) : List Char → Bool
  | [] => rxMatchesAt p []
  | c :: rest => rxMatchesAt p (c :: rest) || rxSearch p rest

/-- `re.match`: anchored at the start of the string. -/
def rxMatchHere (p : Rx) (s : List Char) : Bool := rxMatchesAt p s

/-! ## `app/ai/classifier.py` — ShouldRespondClassifier -/

/-- Pattern `\b(hey\s+)?w\b` (classifier.py lines 11-17), for
`w` ∈ ai/assistant/bot. -/
def heyTriggerR (w : String) : Rx :=
  seqR (optR (seqR (litS ("hey")) wsR)) (seqR (litS w) boundR)

/-- The `ai_triggers` rule list (classifier.py lines 11-17, 67-69):
any pattern fires under `re.search`. -/
def ai_triggers_match (cl : List Char) : Bool :=
  rxSearchB (heyTriggerR ("ai")) cl ||
  rxSearchB (heyTriggerR ("assistant")) cl ||
  rxSearchB (heyTriggerR ("bot")) cl ||
  rxSearch (litS ("@ai")) cl ||
  rxSearch (litS ("@assistant")) cl

/-- Pattern `\bw\s+you\b` for the can/could/will/would-you question rules. -/
def youR (w : String) : Rx :=
  seqR (litS w) (seqR wsR (seqR (litS ("you")) boundR))

/-- The `question_patterns` rule list (classifier.py lines 19-31, 77-81). -/
def question_patterns_match (cl : List Char) : Bool :=
  rxSearchB (youR ("can")) cl ||
  rxSearchB (youR ("could")) cl ||
  rxSearchB (youR ("will")) cl ||
  rxSearchB (youR ("would")) cl ||
  rxSearchB (seqR (litS ("please")) (seqR boundR (seqR dotStarR (litS ("?"))))) cl ||
  rxSearchB (seqR (litS ("help")) (seqR wsR (seqR (altR (litS ("me")) (litS ("us"))) boundR))) cl ||
  rxSearchB (seqR (litS ("what")) (seqR wsR (anyWordR ["is", "are", "was", "were"]))) cl ||
  rxSearchB (seqR (litS ("how")) (seqR wsR (anyWordR ["do", "does", "can", "to"]))) cl ||
  rxSearchB (seqR (litS ("why")) (seqR wsR (anyWordR ["is", "are", "do", "does"]))) cl ||
  rxSearchB (seqR (litS ("when")) (seqR wsR (anyWordR ["is", "are", "do", "does", "should"]))) cl ||
  rxSearchB (seqR (litS ("where")) (seqR wsR (anyWordR ["is", "are", "do", "does"]))) cl

/-- Pattern `\bverb\s+a?\s+task\b` for the create/add-task rules.  Note that
with the optional `a` absent the two `\s+` runs require at least two
whitespace characters in a row, exactly as in Python. -/
def aTaskR (verb : String) : Rx :=
  seqR (litS verb) (seqR wsR (seqR (optR (litS ("a"))) (seqR wsR (seqR (litS ("task")) boundR))))

/-- The `task_keywords` rule list (classifier.py lines 33-41, 72-74). -/
def task_keywords_match (cl : List Char) : Bool :=
  rxSearchB (aTaskR ("create")) cl ||
  rxSearchB (aTaskR ("add")) cl ||
  rxSearchB (seqR (litS ("todo")) boundR) cl ||
  rxSearchB (seqR (litS ("need")) (seqR wsR (seqR (litS ("to")) (seqR wsR (seqR (litS ("do")) boundR))))) cl ||
  rxSearchB (seqR (litS ("remind")) (seqR wsR (seqR (litS ("me")) boundR))) cl ||
  rxSearchB (seqR (litS ("schedule")) boundR) cl ||
  rxSearchB (seqR (litS ("assign")) boundR) cl

/-- Greeting rule `re.match(r"^(hi|hello|hey)\s+(ai|assistant|bot)", cl)`
(classifier.py line 84). -/
def greeting_match (cl : List Char) : Bool :=
  rxMatchHere (seqR (anyWordR ["hi", "hello", "hey"]) (seqR wsR (anyWordR ["ai", "assistant", "bot"]))) cl

/-- Slash-command rule `content_lower.startswith(("/ai", "/help", "/summarize",
"/translate"))` (classifier.py line 88). -/
def commands_match (cl : List Char) : Bool :=
  (("/ai").toList).isPrefixOf cl || (("/help").toList).isPrefixOf cl ||
  (("/summarize").toList).isPrefixOf cl || (("/translate").toList).isPrefixOf cl

/-- `ShouldRespondClassifier._check_rules` (classifier.py lines 54-96):
ordered rule cascade, then the under-3-words negative default, else `None`. -/
def check_rules (content : List Char) : Option Bool :=
  if ai_triggers_match (pyToLowerL content) then some true
  else if task_keywords_match (pyToLowerL content) then some true
  else if question_patterns_match (pyToLowerL content) && occursIn (("?").toList) content then some true
  else if greeting_match (pyToLowerL content) then some true
  else if commands_match (pyToLowerL content) then some true
  else if (pyWords content).length < 3 then some false
  else none

/-- Outcome of `should_respond`: the verdict, and whether the model-backed
fallback `_llm_classify` was consulted. -/
structure ClassifierOutcome where
  verdict : Bool
  llm_called : Bool
deriving DecidableEq

/-- `ShouldRespondClassifier.should_respond` (classifier.py lines 43-52): rule
verdict if any, else the LLM fallback (whose answer is the oracle
`llm_verdict`). -/
def should_respond (llm_verdict : Bool) (content : List Char) : ClassifierOutcome :=
  match check_rules content with
  | some b => ⟨b, false⟩
  | none => ⟨llm_verdict, true⟩

/-- Does any deterministic trigger rule of `_check_rules` fire on this content?
(The disjunction of the five positive rule groups, in source order.) -/
def any_trigger_rule_fires (content : List Char) : Bool :=
  ai_triggers_match (pyToLowerL content) ||
  task_keywords_match (pyToLowerL content) ||
  (question_patterns_match (pyToLowerL content) && occursIn (("?").toList) content) ||
  greeting_match (pyToLowerL content) ||
  commands_match (pyToLowerL content)

/-! ## `app/ai/gemini_client.py` — retry helper and text generation -/

/-- `MAX_RETRIES` (gemini_client.py line 15). -/
def MAX_RETRIES : ℕ := 3

/-- `BASE_DELAY` (gemini_client.py line 16). -/
def BASE_DELAY : ℚ := 1

/-- `MAX_DELAY` (gemini_client.py line 17). -/
def MAX_DELAY : ℚ := 10

/-- The transient-error signatures of `retry_with_backoff`
(gemini_client.py line 45). -/
def retryable_markers : List (List Char) :=
  [("503").toList, ("overload").toList, ("rate").toList, ("quota").toList, ("unavailable").toList]

/-- `is_retryable` classification (gemini_client.py lines 42-45):
any marker occurs in the lowered error text. -/
def is_retryable_error (e : List Char) : Bool :=
  retryable_markers.any (fun x => occursIn x (pyToLowerL e))

/-- Trace of one `retry_with_backoff` run: final result, number of calls made
to the wrapped function, and the sleep delays taken between attempts. -/
structure RetryTrace (α : Type) where
  result : Except (List Char) α
  calls : ℕ
  delays : List ℚ

/-- The attempt loop of `retry_with_backoff` (gemini_client.py lines 35-55).
`outcome i` is what the wrapped call returns or raises on attempt `i`;
`jitter i` is `random.uniform(0, 1)` on attempt `i`.  The fuel counts the
remaining iterations of `for attempt in range(MAX_RETRIES)`; on exhaustion the
final `raise last_exception` fires. -/
def retryGo {α : Type} (outcome : ℕ → Except (List Char) α) (jitter : ℕ → ℚ) :
    ℕ → ℕ → ℕ → List ℚ → Option (List Char) → RetryTrace α
  | 0, _, calls, delays, last => ⟨.error (last.getD []), calls, delays⟩
  | fuel + 1, attempt, calls, delays, _ =>
    match outcome attempt with
    | .ok a => ⟨.ok a, calls + 1, delays⟩
    | .error e =>
      if !is_retryable_error e || attempt == MAX_RETRIES - 1 then
        ⟨.error e, calls + 1, delays⟩
      else
        retryGo outcome jitter fuel (attempt + 1) (calls + 1)
          (delays ++ [min (BASE_DELAY * 2 ^ attempt + jitter attempt) MAX_DELAY]) (some e)

/-- `retry_with_backoff(func, ...)` (gemini_client.py lines 20-55). -/
def retry_with_backoff {α : Type} (outcome : ℕ → Except (List Char) α) (jitter : ℕ → ℚ) :
    RetryTrace α :=
  retryGo outcome jitter MAX_RETRIES 0 0 [] none

/-- The not-configured error text of `GeminiClient.generate_response`
(gemini_client.py line 104). -/
def no_key_error_text : List Char := ("Error: Google API Key not configured.").toList

/-- The apology fallback of `GeminiClient.generate_response`
(gemini_client.py line 117). -/
def overloaded_apology (e : List Char) : List Char :=
  ("I\x27m sorry, I\x27m currently overloaded. Please try again in a moment. (Error: ").toList
    ++ e ++ (")").toList

/-- Trace of one `GeminiClient.generate_response` call: returned text and the
number of underlying `generate_content` API calls made. -/
structure GenerateTrace where
  output : List Char
  api_calls : ℕ
deriving DecidableEq

/-- `GeminiClient.generate_response` (gemini_client.py lines 86-117).  `api` is
what the single `client.models.generate_content` call returns or raises.  Note
the source calls the API directly inside `try/except` — it does not go through
`retry_with_backoff` (which no call site in the repository uses). -/
def generate_response (configured : Bool) (api : Except (List Char) (List Char)) :
    GenerateTrace :=
  if !configured then ⟨no_key_error_text, 0⟩
  else
    match api with
    | .ok t => ⟨t, 1⟩
    | .error e => ⟨overloaded_apology e, 1⟩

/-- A transient error text as produced by the hosted model when overloaded. -/
def transient_err : List Char := ("503 The model is overloaded").toList

/-- A non-transient error text (bad credentials). -/
def permanent_err : List Char := ("Invalid API key").toList

/-! ## `app/services/rag_service.py` — chunking (RAGService._chunk_text) -/

/-- One candidate position of Python `text.rfind(sep, a, b)`: the match must
start at or after `a` and end by `min b (len text)`. -/
def rfindMatchAt (text sep : List Char) (hi i : ℕ) : Bool :=
  decide (i + sep.length ≤ hi) && sep.isPrefixOf (text.drop i)

/-- Descending scan of `text.rfind(sep, a, hi)` from candidate position `i`. -/
def rfindGo (text sep : List Char) (a hi : ℕ) : ℕ → Option ℕ
  | 0 => if a ≤ 0 ∧ rfindMatchAt text sep hi 0 then some 0 else none
  | i + 1 =>
    if a ≤ i + 1 ∧ rfindMatchAt text sep hi (i + 1) then some (i + 1)
    else rfindGo text sep a hi i

/-- Python `text.rfind(sep, a, b)`: rightmost occurrence of `sep` inside
`text[a:b]`, or `None` (`-1` in Python). -/
def pyRfind (text sep : List Char) (a b : ℕ) : Option ℕ :=
  rfindGo text sep a (min b text.length) (min b text.length - sep.length)

/-- The separator preference list of `_chunk_text` (rag_service.py line 84). -/
def chunk_seps : List (List Char) :=
  [(". ").toList, (".\n").toList, ("\n\n").toList, ("\n").toList, (" ").toList]

/-- The `for sep in [...]` break-point search of `_chunk_text`
(rag_service.py lines 84-88): first separator found in
`text[start+chunk_size-100 : end]` past `start` wins and the window end moves
to just after it. -/
def adjustEndLoop (text : List Char) (csize start e0 : ℕ) : List (List Char) → ℕ
  | [] => e0
  | sep :: rest =>
    match pyRfind text sep (start + csize - 100) e0 with
    | some i => if start < i then i + sep.length else adjustEndLoop text csize start e0 rest
    | none => adjustEndLoop text csize start e0 rest

/-- The window end for the chunk starting at `start`
(rag_service.py lines 79-88): `start + chunk_size`, moved back to a natural
break point when the window does not already reach the end of the text. -/
def computeEnd (text : List Char) (csize start : ℕ) : ℕ :=
  if start + csize < text.length then adjustEndLoop text csize start (start + csize) chunk_seps
  else start + csize

/-- The `while start < len(text)` loop of `_chunk_text`
(rag_service.py lines 78-94) as the list of `(start, end)` windows it slices.
The fuel bounds the iteration count; `text.length + 1` is always enough
because every iteration advances `start`. -/
def chunkWindows (text : List Char) (csize overlap : ℕ) : ℕ → ℕ → List (ℕ × ℕ)
  | 0, _ => []
  | fuel + 1, start =>
    if start < text.length then
      (start, computeEnd text csize start) ::
        chunkWindows text csize overlap fuel (computeEnd text csize start - overlap)
    else []

/-- Python slice `text[start:end]`. -/
def sliceW (text : List Char) (w : ℕ × ℕ) : List Char := (text.drop w.1).take (w.2 - w.1)

/-- `RAGService._chunk_text` (rag_service.py lines 57-96): short texts are a
single chunk (or nothing if blank); longer texts are the stripped, non-empty
window slices. -/
def chunk_text (text : List Char) (csize overlap : ℕ) : List (List Char) :=
  if text.length ≤ csize then (if ¬ (pyStripL text).isEmpty then [text] else [])
  else
    ((chunkWindows text csize overlap (text.length + 1) 0).map
      (fun w => pyStripL (sliceW text w))).filter (fun c => ¬ c.isEmpty)

/-- Concatenation of the tail windows with the first `overlap` characters
removed from each. -/
def reconTail (text : List Char) (overlap : ℕ) (wins : List (ℕ × ℕ)) : List Char :=
  (wins.map (fun v => (sliceW text v).drop overlap)).flatten

/-- Concatenation of the window slices with the overlap removed from every
window after the first. -/
def reconstructed (text : List Char) (overlap : ℕ) : List (ℕ × ℕ) → List Char
  | [] => []
  | w :: ws => sliceW text w ++ reconTail text overlap ws

/-! ## `app/services/rag_service.py` — cosine similarity and semantic search

Python `float` arithmetic is modelled over `ℚ`; `math.sqrt` is an abstract
function `sq`, constrained exactly where a theorem needs a true square root. -/

/-- `sum(x * y for x, y in zip(a, b))` (rag_service.py line 402). -/
def dotProduct (a b : List ℚ) : ℚ := ((a.zip b).map (fun p => p.1 * p.2)).sum

/-- `RAGService._cosine_similarity` (rag_service.py lines 395-409), with
`math.sqrt` as the abstract `sq`: mismatched lengths give 0, a zero magnitude
on either side gives 0 (never dividing), else the normalized dot product. -/
def cosine_similarity (sq : ℚ → ℚ) (a b : List ℚ) : ℚ :=
  if a.length ≠ b.length then 0
  else if sq (dotProduct a a) = 0 ∨ sq (dotProduct b b) = 0 then 0
  else dotProduct a b / (sq (dotProduct a a) * sq (dotProduct b b))

/-- A stored document chunk (rag_service.py lines 256-265). -/
structure ChunkRec where
  id : List Char
  document_id : List Char
  content : List Char
  page_number : Option ℕ
  embedding : List ℚ

/-- One `semantic_search` result entry (rag_service.py lines 383-389). -/
structure SearchHit where
  chunk_id : List Char
  document_id : List Char
  content : List Char
  page_number : Option ℕ
  similarity : ℚ

/-- Stable insertion for a descending sort: an element moves ahead only of
strictly smaller keys, so equal keys keep their original order, as Python's
stable `list.sort(..., reverse=True)` does. -/
def insertDesc {α : Type} (key : α → ℚ) (x : α) : List α → List α
  | [] => [x]
  | y :: ys => if key y < key x then x :: y :: ys else y :: insertDesc key x ys

/-- Stable descending sort by key (Python `list.sort(key=..., reverse=True)`,
rag_service.py line 392). -/
def sortDesc {α : Type} (key : α → ℚ) (l : List α) : List α :=
  l.foldl (fun acc x => insertDesc key x acc) []

/-- `RAGService.semantic_search` (rag_service.py lines 349-393): empty room
gives no hits; otherwise chunks with a truthy (non-empty) embedding list are
scored against the query embedding, sorted by descending similarity, and the
top `limit` returned. -/
def semantic_search (sq : ℚ → ℚ) (query_embedding : List ℚ) (chunks : List ChunkRec)
    (limit : ℕ) : List SearchHit :=
  if chunks.isEmpty then []
  else
    (sortDesc (fun h => h.similarity)
      ((chunks.filter (fun c => ¬ c.embedding.isEmpty)).map
        (fun c => ⟨c.id, c.document_id, c.content, c.page_number,
          cosine_similarity sq query_embedding c.embedding⟩))).take limit

/-! ## `app/ai/tools.py` and `app/ai/tool_executor.py` — the Silent Tool Executor

The external model's side of the function-calling negotiation is an oracle
script: a list of events, one per `chat.send_message` call the executor makes,
each either a proposed tool call, a no-call reply (plain text / empty), or a
raised exception.  Side-effecting payload generators (web search, translation,
summaries, document retrieval) are abstracted into a `ToolEnv` of oracles,
since no claim inspects their content. -/

/-- A task document as written by the task tools (tools.py lines 46-51). -/
structure TaskRec where
  title : Option (List Char)
  status : List Char
  assignee_id : Option (List Char)
  due_date : Option (List Char)
deriving DecidableEq

/-- The value a tool dispatch returns: Python `None`, a task dict (no `error`
key), an error-tagged dict, a string payload, a list payload, a task-list
payload, a reaction write, or the `no_action` marker dict. -/
inductive ToolOutcome where
  | pyNone
  | task (t : TaskRec)
  | errTag (msg : List Char)
  | textPayload (s : List Char)
  | listPayload (xs : List (List Char))
  | tasks (ts : List TaskRec)
  | reacted (emoji : List Char)
  | noActionTaken
deriving DecidableEq

/-- Python truthiness of a tool result (`if result` / `result and ...`):
`None` and empty strings/lists are falsy; non-empty dicts are truthy. -/
def ToolOutcome.truthy : ToolOutcome → Bool
  | .pyNone => false
  | .task _ => true
  | .errTag _ => true
  | .textPayload s => !s.isEmpty
  | .listPayload xs => !xs.isEmpty
  | .tasks ts => !ts.isEmpty
  | .reacted _ => true
  | .noActionTaken => true

/-- Python truthiness of `result.get("error")`: only an error-tagged dict with
a non-empty message counts. -/
def ToolOutcome.hasError : ToolOutcome → Bool
  | .errTag m => !m.isEmpty
  | _ => false

/-- A room member entry as assembled by `_get_room_members`
(tool_executor.py lines 35-49). -/
structure RoomMember where
  id : List Char
  username : List Char
deriving DecidableEq

/-- `ToolExecutor._find_member_by_username` (tool_executor.py lines 162-170):
`None`/empty name resolves to nothing; otherwise the first member whose
lowered username contains the lowered query. -/
def find_member_by_username (members : List RoomMember) (username : List Char) :
    Option RoomMember :=
  if username.isEmpty then none
  else members.find? (fun m => occursIn (pyToLowerL username) (pyToLowerL m.username))

/-- Oracles for the tool payloads that come from external capabilities
(web search text, translation, summaries, document retrieval). -/
structure ToolEnv where
  web : List Char → List Char
  translate : List Char → List Char → List Char
  summarize : ℕ → List Char
  docSearch : List Char → List (List Char)
  docAnswer : List Char → List Char

/-- `tool_create_task` (tools.py lines 26-82): inserts a task with status
`todo` and returns the task dict.  An invalid assignee ObjectId and an
unparseable ISO due date are silently dropped in the source; neither path ever
returns an error tag, so the outcome here is always a task dict. -/
def tool_create_task (db : List TaskRec) (title : Option (List Char))
    (assignee_id : Option (List Char)) (due_date : Option (List Char)) :
    List TaskRec × ToolOutcome :=
  (db ++ [⟨title, ("todo").toList, assignee_id, due_date⟩],
   .task ⟨title, ("todo").toList, assignee_id, due_date⟩)

/-- Case-insensitive containment of a query in a task's title. -/
def titleMatches (q : List Char) (t : TaskRec) : Bool :=
  occursIn (pyToLowerL q) (pyToLowerL (t.title.getD []))

/-- Modelled from the spec: `tool_update_task_by_title` is imported by the
executor (tool_executor.py line 15) and called at line 321 but is missing from
`app/ai/tools.py`.  Spec §4.4 error policy: update finds a task by title
(free-text, partial match as in the catalog description) and an unresolvable
title yields an error-tagged result for that call only.  Modelled as: update
the first title-matching task, else return an error-tagged dict. -/
def tool_update_task_by_title (db : List TaskRec) (task_title : Option (List Char))
    (status : Option (List Char)) (assignee_id : Option (List Char)) :
    List TaskRec × ToolOutcome :=
  match task_title with
  | none => (db, .errTag (("Task not found").toList))
  | some q =>
    match db.find? (titleMatches q) with
    | none => (db, .errTag (("Task not found").toList))
    | some t =>
      (db.map (fun u => if u = t then
          ⟨t.title, status.getD t.status, (assignee_id.rec t.assignee_id some : Option (List Char)), t.due_date⟩
        else u),
       .task ⟨t.title, status.getD t.status, (assignee_id.rec t.assignee_id some : Option (List Char)), t.due_date⟩)

/-- Python truthiness filter for the `status` argument of `tool_list_tasks`
(tools.py lines 147-149): a falsy (absent or empty) status means no filter. -/
def statusFilter (status : Option (List Char)) (t : TaskRec) : Bool :=
  match status with
  | some s => if s.isEmpty then true else t.status = s
  | none => true

/-- `tool_list_tasks` (tools.py lines 133-163): tasks of the room, newest
first, optionally status-filtered, capped at 20. -/
def tool_list_tasks (db : List TaskRec) (status : Option (List Char)) : ToolOutcome :=
  .tasks ((db.reverse.filter (statusFilter status)).take 20)

/-- `tool_web_search` (tools.py lines 274-290): wraps the gateway's
synthesized text in a single result item. -/
def tool_web_search (env : ToolEnv) (query : List Char) : ToolOutcome :=
  .listPayload [env.web query]

/-- `tool_translate_text` (tools.py lines 169-171). -/
def tool_translate_text (env : ToolEnv) (text target : List Char) : ToolOutcome :=
  .textPayload (env.translate text target)

/-- `tool_summarize_messages` (tools.py lines 174-208). -/
def tool_summarize_messages (env : ToolEnv) (last_n : ℕ) : ToolOutcome :=
  .textPayload (env.summarize last_n)

/-- Modelled from the spec: `tool_react_to_message` is imported
(tool_executor.py line 12) and called at line 347 but is missing from
`app/ai/tools.py`.  Spec §3: attaches the emoji reaction to the triggering
message; the executor's tracking never inspects this result. -/
def tool_react_to_message (emoji : List Char) : ToolOutcome := .reacted emoji

/-- Modelled from the spec: `tool_search_documents` is imported
(tool_executor.py line 13) and called at line 350 but is missing from
`app/ai/tools.py`.  Spec §4.3: returns retrieved chunk contents. -/
def tool_search_documents (env : ToolEnv) (query : List Char) : ToolOutcome :=
  .listPayload (env.docSearch query)

/-- Modelled from the spec: `tool_ask_documents` is imported
(tool_executor.py line 11) and called at line 353 but is missing from
`app/ai/tools.py`.  Spec §4.3: returns the grounded answer text. -/
def tool_ask_documents (env : ToolEnv) (question : List Char) : ToolOutcome :=
  .textPayload (env.docAnswer question)

/-- The untyped argument map of a proposed tool call. -/
abbrev ArgMap := List (List Char × List Char)

/-- Python `args.get(k)`. -/
def argsGet (args : ArgMap) (k : String) : Option (List Char) := dictGet args k.toList

/-- Python `if args.get(k):` truthiness — absent or empty string is falsy. -/
def argsGetTruthy (args : ArgMap) (k : String) : Option (List Char) :=
  match argsGet args k with
  | some v => if v.isEmpty then none else some v
  | none => none

/-- Assignee resolution in `_execute_tool` (tool_executor.py lines 301-305,
316-319): a truthy `assignee_username` is resolved against the roster; an
unresolvable name leaves the assignee as `None`. -/
def resolve_assignee (members : List RoomMember) (args : ArgMap) : Option (List Char) :=
  match argsGetTruthy args ("assignee_username") with
  | some u => (find_member_by_username members u).map (fun m => m.id)
  | none => none

/-- `ToolExecutor._execute_tool` (tool_executor.py lines 289-358): string-keyed
dispatch to the tool implementations; an unknown tool name returns `None`. -/
def execute_tool (env : ToolEnv) (members : List RoomMember) (db : List TaskRec)
    (tool_name : List Char) (args : ArgMap) : List TaskRec × ToolOutcome :=
  if tool_name = ("create_task").toList then
    tool_create_task db (argsGet args ("title")) (resolve_assignee members args)
      (argsGet args ("due_date"))
  else if tool_name = ("update_task").toList then
    tool_update_task_by_title db (argsGet args ("task_title")) (argsGet args ("status"))
      (resolve_assignee members args)
  else if tool_name = ("list_tasks").toList then
    (db, tool_list_tasks db (argsGet args ("status")))
  else if tool_name = ("search_web").toList then
    (db, tool_web_search env ((argsGet args ("query")).getD []))
  else if tool_name = ("translate_text").toList then
    (db, tool_translate_text env ((argsGet args ("text")).getD [])
      ((argsGet args ("target_language")).getD []))
  else if tool_name = ("summarize_messages").toList then
    (db, tool_summarize_messages env
      (((argsGet args ("last_n")).bind (fun s => (String.mk s).toNat?)).getD 20))
  else if tool_name = ("react_to_message").toList then
    (db, tool_react_to_message ((argsGet args ("emoji")).getD (("👍").toList)))
  else if tool_name = ("search_documents").toList then
    (db, tool_search_documents env ((argsGet args ("query")).getD []))
  else if tool_name = ("ask_documents").toList then
    (db, tool_ask_documents env ((argsGet args ("question")).getD []))
  else if tool_name = ("no_action").toList then
    (db, .noActionTaken)
  else (db, .pyNone)

/-- One `tools_executed` entry (a Python dict with a `type` tag and
per-type fields). -/
structure ExecutedTool where
  type : List Char
  data : Option ToolOutcome := none
  emoji : Option (List Char) := none
  message_id : Option (List Char) := none
deriving DecidableEq

/-- The executor's returned triple (tool_executor.py lines 277-281). -/
structure ToolExecResult where
  tools_executed : List ExecutedTool
  tool_data : List (List Char × ToolOutcome)
  reaction : Option (List Char)
deriving DecidableEq

/-- The empty result set (tool_executor.py lines 197, 214, 287). -/
def emptyExecResult : ToolExecResult := ⟨[], [], none⟩

/-- The tracking `elif` chain of `execute_tools` (tool_executor.py lines
237-262): task mutations are recorded when truthy and not error-tagged, the
reaction variable is overwritten (last wins), and search / translation /
summary / listing payloads are stored into `tool_data`. -/
def trackTool (message_id tool_name : List Char) (args : ArgMap) (result : ToolOutcome)
    (acc : ToolExecResult) : ToolExecResult :=
  if tool_name = ("create_task").toList then
    if result.truthy && !result.hasError then
      { acc with tools_executed :=
          acc.tools_executed ++ [⟨("task_created").toList, some result, none, none⟩] }
    else acc
  else if tool_name = ("update_task").toList then
    if result.truthy && !result.hasError then
      { acc with tools_executed :=
          acc.tools_executed ++ [⟨("task_updated").toList, some result, none, none⟩] }
    else acc
  else if tool_name = ("react_to_message").toList then
    { acc with
      reaction := some ((argsGet args ("emoji")).getD (("👍").toList)),
      tools_executed := acc.tools_executed ++
        [⟨("reaction").toList, none, some ((argsGet args ("emoji")).getD (("👍").toList)),
          some message_id⟩] }
  else if tool_name = ("search_web").toList then
    { acc with
      tool_data := dictSet acc.tool_data (("web_search_result").toList) result,
      tools_executed := acc.tools_executed ++ [⟨("web_search").toList, some result, none, none⟩] }
  else if tool_name = ("search_documents").toList then
    { acc with
      tool_data := dictSet acc.tool_data (("doc_search_result").toList) result,
      tools_executed := acc.tools_executed ++ [⟨("document_search").toList, some result, none, none⟩] }
  else if tool_name = ("ask_documents").toList then
    { acc with
      tool_data := dictSet acc.tool_data (("doc_answer").toList) result,
      tools_executed := acc.tools_executed ++ [⟨("document_answer").toList, some result, none, none⟩] }
  else if tool_name = ("translate_text").toList then
    { acc with
      tool_data := dictSet acc.tool_data (("translation").toList) result,
      tools_executed := acc.tools_executed ++ [⟨("translation").toList, some result, none, none⟩] }
  else if tool_name = ("summarize_messages").toList then
    { acc with
      tool_data := dictSet acc.tool_data (("summary").toList) result,
      tools_executed := acc.tools_executed ++ [⟨("summary").toList, some result, none, none⟩] }
  else if tool_name = ("list_tasks").toList then
    { acc with
      tool_data := dictSet acc.tool_data (("tasks").toList) result,
      tools_executed := acc.tools_executed ++ [⟨("task_list").toList, some result, none, none⟩] }
  else acc

/-- One reply of the model inside the function-calling negotiation: either a
proposed tool call, or a reply with no function call (which ends the loop). -/
inductive ModelTurn where
  | call (tool_name : List Char) (args : ArgMap)
  | finished
deriving DecidableEq

/-- The `while response.candidates ...` negotiation loop of `execute_tools`
(tool_executor.py lines 223-275).  The event list holds one entry per
`chat.send_message` call, in order; `.error` means that gateway call raised.
Executing `no_action` breaks before sending a result back; any other executed
call sends its result back, i.e. consumes the next event.  The task database
travels alongside because tool side effects persist even when a later gateway
call fails. -/
def toolLoop (env : ToolEnv) (members : List RoomMember) (message_id : List Char) :
    List (Except Unit ModelTurn) → List TaskRec → ToolExecResult →
    List TaskRec × Except Unit ToolExecResult
  | [], db, acc => (db, .ok acc)
  | .error _ :: _, db, _ => (db, .error ())
  | .ok .finished :: _, db, acc => (db, .ok acc)
  | .ok (.call tool_name args) :: rest, db, acc =>
    let r := execute_tool env members db tool_name args
    if tool_name = ("no_action").toList then
      (r.1, .ok (trackTool message_id tool_name args r.2 acc))
    else
      toolLoop env members message_id rest r.1 (trackTool message_id tool_name args r.2 acc)

/-- Outcome of `gemini_client.create_chat` as seen by the executor: the call
raised (e.g. the unexpected `tool_config` keyword at tool_executor.py line
210, or anything out of the SDK), returned `None` (create_chat's own except
path, gemini_client.py lines 186-188), or produced a chat session. -/
inductive ChatCreation where
  | raised
  | returnedNone
  | ok
deriving DecidableEq

/-- `ToolExecutor.execute_tools` (tool_executor.py lines 172-287): no-op when
the gateway is unconfigured or chat creation fails; the negotiation loop runs
inside `try/except` and any raised gateway error is converted to the empty
result set (accumulated partial results are discarded, though task writes
already made persist in the database). -/
def execute_tools (configured : Bool) (env : ToolEnv) (members : List RoomMember)
    (message_id : List Char) (creation : ChatCreation)
    (events : List (Except Unit ModelTurn)) (db : List TaskRec) :
    List TaskRec × ToolExecResult :=
  if !configured then (db, emptyExecResult)
  else
    match creation with
    | .raised => (db, emptyExecResult)
    | .returnedNone => (db, emptyExecResult)
    | .ok =>
      match toolLoop env members message_id events db emptyExecResult with
      | (db2, .ok acc) => (db2, acc)
      | (db2, .error _) => (db2, emptyExecResult)

/-! ## `app/ai/chat_responder.py` — the Chat Responder -/

/-- A goal as projected into the room context (ai_coordinator.py line 110). -/
structure RoomGoal where
  title : List Char
  priority : List Char
deriving DecidableEq

/-- An active task as projected into the room context
(ai_coordinator.py lines 102-105). -/
structure ActiveTask where
  title : List Char
  status : List Char
  assignee : Option (List Char)
deriving DecidableEq

/-- The knowledge-base projection (ai_coordinator.py lines 115-119). -/
structure KBRec where
  summary : Option (List Char)
  key_decisions : List (List Char)
deriving DecidableEq

/-- A retrieved document snippet (ai_coordinator.py lines 68-75). -/
structure DocSnippet where
  content : List Char
  page : Option ℕ
deriving DecidableEq

/-- The room context dict assembled by `AICoordinator.gather_room_context`
(ai_coordinator.py lines 81-133), restricted to the fields the Chat Responder
reads. -/
structure RoomContext where
  room_name : Option (List Char)
  room_members : List RoomMember
  goals : List RoomGoal
  custom_ai_instructions : Option (List Char)
  active_tasks : List ActiveTask
  knowledge_base : Option KBRec
  doc_snippets : List DocSnippet
  recent_messages : List (List Char)
deriving DecidableEq

/-- Python `msg.split(sep, 1)` preceded by `sep in msg`: split at the first
occurrence, or `None` when absent. -/
def pySplitOnce (sep : List Char) : List Char → Option (List Char × List Char)
  | [] => none
  | c :: rest =>
    if sep.isPrefixOf (c :: rest) then some ([], (c :: rest).drop sep.length)
    else
      match pySplitOnce sep rest with
      | some p => some (c :: p.1, p.2)
      | none => none

/-- A model-facing conversation turn. -/
structure HistoryMsg where
  role : List Char
  parts : List (List Char)
deriving DecidableEq

/-- The AI display-name aliases used for role relabeling
(chat_responder.py line 191). -/
def ai_name_aliases : List (List Char) :=
  [("ai").toList, ("assistant").toList, ("bot").toList, ("ai assistant").toList, ("veya").toList]

/-- `ChatResponder._build_history` (chat_responder.py lines 183-197): the last
8 transcript lines of the form `name: text`, relabeled `model` when the sender
name is an AI alias, else `user`. -/
def build_history (recent_messages : List (List Char)) : List HistoryMsg :=
  (recent_messages.drop (recent_messages.length - 8)).filterMap (fun msg =>
    match pySplitOnce ((": ").toList) msg with
    | some p =>
      some ⟨if ai_name_aliases.contains (pyToLowerL p.1) then ("model").toList
            else ("user").toList, [p.2]⟩
    | none => none)

/-- Join lines with `"\n"`. -/
def lineJoin (xs : List (List Char)) : List Char := List.intercalate (("\n").toList) xs

/-- Join items with `", "`. -/
def commaJoin (xs : List (List Char)) : List Char := List.intercalate ((", ").toList) xs

/-- Decimal rendering of a number interpolated into an f-string. -/
def natToChars (n : ℕ) : List Char := (toString n).toList

/-- The assignee suffix of an active-task line (chat_responder.py line 122). -/
def assignee_suffix (t : ActiveTask) : List Char :=
  match t.assignee with
  | some a => if a.isEmpty then [] else (" (").toList ++ a ++ (")").toList
  | none => []

/-- One active-task line (chat_responder.py line 123). -/
def task_line (t : ActiveTask) : List Char :=
  ("  - ").toList ++ t.title ++ assignee_suffix t ++ (" [").toList ++ t.status ++ ("]").toList

/-- One document-snippet line (chat_responder.py lines 135-138); a page number
of 0 is falsy in Python and renders no page info; content is capped at 400. -/
def snippet_line (idx : ℕ) (s : DocSnippet) : List Char :=
  ("[Doc ").toList ++ natToChars (idx + 1) ++
    (match s.page with
     | some p => if p = 0 then [] else (" (page ").toList ++ natToChars p ++ (")").toList
     | none => []) ++
    ("] ").toList ++ s.content.take 400

/-- The task title rendered into an action narration line
(`result.get("data", \x7b\x7d).get("title", "Unknown")`). -/
def data_title (r : ExecutedTool) : List Char :=
  match r.data with
  | some (.task t) => t.title.getD (("Unknown").toList)
  | _ => ("Unknown").toList

/-- The narration line(s) for one executed tool
(chat_responder.py lines 145-157). -/
def tool_narration (r : ExecutedTool) : List (List Char) :=
  if r.type = ("task_created").toList then
    [("- ✅ Created task: \x27").toList ++ data_title r ++ ("\x27").toList]
  else if r.type = ("task_updated").toList then
    [("- ✅ Updated task: \x27").toList ++ data_title r ++ ("\x27").toList]
  else if r.type = ("reaction").toList then
    [("- Reacted with ").toList ++ (r.emoji.getD (("👍").toList))]
  else if r.type = ("web_search").toList then
    [("- 🔍 Searched the web").toList]
  else if r.type = ("document_search").toList then
    [("- 📄 Searched documents").toList]
  else []

/-- `ChatResponder._build_system_instruction` (chat_responder.py lines
77-181): the persona preamble, the conditional context sections, the
actions-taken narration, and the closing style/examples block, joined by
newlines. -/
def build_system_instruction (ctx : RoomContext) (tool_results : List ExecutedTool) :
    List Char :=
  lineJoin (
    [("# IDENTITY").toList,
     ("You are Veya, a friendly AI teammate in a collaborative workspace.").toList,
     ("You were created for AI-Rooms by Anas, Sohaila, Youstina, and Ruba.").toList,
     [],
     ("# YOUR ROLE").toList,
     ("Your ONLY job is to respond conversationally to users.").toList,
     ("You DO NOT have access to any tools - another system handles tool execution.").toList,
     ("Focus purely on being helpful, friendly, and informative in your responses.").toList,
     [],
     ("# PERSONALITY").toList,
     ("- Warm, helpful, and genuinely interested in the team\x27s success").toList,
     ("- Speak naturally like a real teammate, not robotic or overly formal").toList,
     ("- Use casual language and contractions (I\x27m, you\x27re, let\x27s)").toList,
     ("- Be concise - match the energy and length of messages you receive").toList,
     ("- Add light humor only when the mood is casual, skip it if things seem urgent").toList,
     ("- Show enthusiasm with emojis when celebrating wins 🎉").toList,
     [],
     ("# CONTEXT").toList,
     ("Room: ").toList ++ ctx.room_name.getD (("AI Room").toList),
     (if ¬ ctx.room_members.isEmpty then
        ("Team members: ").toList ++ commaJoin (ctx.room_members.map (fun m => m.username))
      else [])] ++
    (if ¬ ctx.goals.isEmpty then
       [("Room goals: ").toList ++ commaJoin ((ctx.goals.take 3).map (fun g => g.title))]
     else []) ++
    (match ctx.custom_ai_instructions with
     | some s => if s.isEmpty then [] else [("\n⚡ PRIORITY INSTRUCTIONS:\n").toList ++ s]
     | none => []) ++
    (if ¬ ctx.active_tasks.isEmpty then
       [("\nActive tasks:\n").toList ++ lineJoin ((ctx.active_tasks.take 5).map task_line)]
     else []) ++
    (match ctx.knowledge_base with
     | some kb =>
       (match kb.summary with
        | some s => if s.isEmpty then [] else [("\n📚 Knowledge Base: ").toList ++ s]
        | none => [])
     | none => []) ++
    (if ¬ ctx.doc_snippets.isEmpty then
       [("\n📄 Relevant document excerpts:\n").toList ++
          lineJoin (ctx.doc_snippets.enum.map (fun p => snippet_line p.1 p.2))]
     else []) ++
    (if ¬ tool_results.isEmpty then
       [("\n# ACTIONS TAKEN BY SYSTEM").toList,
        ("The following actions were automatically executed:").toList] ++
       (tool_results.map tool_narration).flatten ++
       [("\nMention these actions naturally in your response if relevant.").toList]
     else []) ++
    [[],
     ("# RESPONSE STYLE").toList,
     ("- Keep responses SHORT unless detail is needed").toList,
     ("- Start directly, no \x27Veya:\x27 prefix").toList,
     ("- Skip meta-acknowledgments like \x27I saw your message\x27").toList,
     ("- Use **bold** for emphasis and `code` when relevant").toList,
     ("- Be helpful and answer questions to the best of your knowledge").toList,
     ("- If you created/updated tasks, mention it naturally: \x27Added that to our board!\x27").toList,
     [],
     ("# EXAMPLES").toList,
     ("User: \x27What\x27s the capital of France?\x27").toList,
     ("→ \x27Paris! 🇫🇷 Need anything else?\x27").toList,
     [],
     ("User: \x27I\x27ll finish the login page by Friday\x27 (task was created)").toList,
     ("→ \x27Got it! Added to the board. Let me know if you need help!\x27").toList,
     [],
     ("User: \x27Just deployed the new feature!\x27").toList,
     ("→ \x27Amazing work! 🚀\x27").toList])

/-- The config dict passed to `client.chats.create`
(gemini_client.py lines 167-169). -/
structure ChatConfig where
  system_instruction : List Char
  tools : Option (List (List Char))
deriving DecidableEq

/-- The arguments of the `client.chats.create` call
(gemini_client.py lines 183-185). -/
structure ChatSessionArgs where
  model : List Char
  config : ChatConfig
  history : List HistoryMsg
deriving DecidableEq

/-- `GeminiClient.create_chat` (gemini_client.py lines 144-188), projected to
the chat-session request it constructs: `None` when unconfigured; the `tools`
key enters the config only when the argument is truthy (non-`None`, non-empty
list); history entries with a non-empty parts list are kept. -/
def create_chat (configured : Bool) (history : List HistoryMsg)
    (system_instruction : List Char) (tools : Option (List (List Char))) :
    Option ChatSessionArgs :=
  if !configured then none
  else
    some ⟨("gemini-2.5-flash-lite").toList,
      ⟨system_instruction,
       match tools with
       | some ts => if ts.isEmpty then none else some ts
       | none => none⟩,
      history.filterMap (fun m => m.parts.head?.map (fun t => ⟨m.role, [t]⟩))⟩

/-- `ChatResponder.generate_response` (chat_responder.py lines 25-75),
projected to the model conversation it opens: `None` when unconfigured,
otherwise the `create_chat` request it makes — with `tools=None` at the call
site (line 62). -/
def generate_response_chatArgs (configured : Bool) (ctx : RoomContext)
    (tool_results : List ExecutedTool) : Option ChatSessionArgs :=
  if !configured then none
  else create_chat configured (build_history ctx.recent_messages)
    (build_system_instruction ctx tool_results) none

/-! ## `app/ai/ai_coordinator.py` — the Pipeline Coordinator -/

/-- The interaction trigger words of `_should_generate_response`
(ai_coordinator.py line 264). -/
def response_triggers : List (List Char) :=
  [("help").toList, ("explain").toList, ("what").toList, ("how").toList, ("why").toList,
   ("when").toList, ("where").toList, ("can you").toList, ("please").toList]

/-- The AI mention markers of `_should_generate_response`
(ai_coordinator.py line 269). -/
def ai_mention_markers : List (List Char) :=
  [("veya").toList, ("ai").toList, ("assistant").toList, ("@ai").toList, ("@veya").toList]

/-- `AICoordinator._should_generate_response` (ai_coordinator.py lines
227-274): the ordered rule cascade — reaction-only suppresses text; non-empty
tool data requires it; task mutations require it; then `?`, trigger words, AI
mentions; default `True`. -/
def should_generate_response (content : List Char) (executed_tools : List ExecutedTool)
    (tool_data : List (List Char × ToolOutcome)) : Bool :=
  if !executed_tools.isEmpty && executed_tools.all (fun t => t.type = ("reaction").toList) then
    false
  else if !tool_data.isEmpty then true
  else if executed_tools.any (fun t =>
      t.type = ("task_created").toList || t.type = ("task_updated").toList) then true
  else if occursIn (("?").toList) content then true
  else if response_triggers.any (fun tr => occursIn tr (pyToLowerL content)) then true
  else if ai_mention_markers.any (fun m => occursIn m (pyToLowerL content)) then true
  else true

/-- The coordinator's returned dict (ai_coordinator.py lines 200-205,
220-225), minus the constant `action` field. -/
structure PipelineResult where
  content : Option (List Char)
  tools_executed : List ExecutedTool
  reaction : Option (List Char)
deriving DecidableEq

/-- Outcome of one `handle_message` run: the returned value and whether
`chat_responder.generate_response` was invoked. -/
structure HandleOutcome where
  result : Option PipelineResult
  responder_invoked : Bool
deriving DecidableEq

/-- The decision logic of `AICoordinator.handle_message` (ai_coordinator.py
lines 135-225) after the Tool Executor has produced `toolRes`:
`None` when the gateway is unconfigured; otherwise text is suppressed or the
Chat Responder's output (`responder_output`) becomes the content. -/
def handle_message (configured : Bool) (toolRes : ToolExecResult)
    (responder_output : Option (List Char)) (content : List Char) : HandleOutcome :=
  if !configured then ⟨none, false⟩
  else if !(should_generate_response content toolRes.tools_executed toolRes.tool_data) then
    ⟨some ⟨none, toolRes.tools_executed, toolRes.reaction⟩, false⟩
  else ⟨some ⟨responder_output, toolRes.tools_executed, toolRes.reaction⟩, true⟩

/-- The public names defined in `app/ai/tools.py` (its `def` statements). -/
def tools_module_defs : List (List Char) :=
  [("tool_create_task").toList, ("tool_update_task").toList, ("tool_list_tasks").toList,
   ("tool_translate_text").toList, ("tool_summarize_messages").toList,
   ("tool_update_room_kb").toList, ("tool_web_search").toList,
   ("tool_generate_image").toList, ("tool_rephrase_text").toList,
   ("tool_rewrite_in_user_style").toList]

/-- The names `app/ai/tool_executor.py` imports from `app.ai.tools`
(tool_executor.py lines 11-15), in statement order. -/
def tool_executor_import_names : List (List Char) :=
  [("tool_ask_documents").toList, ("tool_create_task").toList, ("tool_list_tasks").toList,
   ("tool_react_to_message").toList, ("tool_search_documents").toList,
   ("tool_summarize_messages").toList, ("tool_translate_text").toList,
   ("tool_update_task").toList, ("tool_update_task_by_title").toList,
   ("tool_web_search").toList]

/-- Python module import of `app.ai.tool_executor`: its `from app.ai.tools
import-list statement raises `ImportError` at the first name that
`app/ai/tools.py` does not define. -/
def import_tool_executor : Except (List Char) Unit :=
  match tool_executor_import_names.find? (fun n => ¬ tools_module_defs.contains n) with
  | some n => .error (("ImportError: cannot import name ").toList ++ n)
  | none => .ok ()

/-- `AICoordinator.handle_message` as the caller sees it, exceptions included:
the unconfigured no-op returns before any tool-executor import; otherwise the
lazy `from app.ai.tool_executor import ToolExecutor` (ai_coordinator.py line
178) runs the module import, whose failure propagates — `handle_message` has
no try/except of its own. -/
def handle_message_entry (configured : Bool) (toolRes : ToolExecResult)
    (responder_output : Option (List Char)) (content : List Char) :
    Except (List Char) HandleOutcome :=
  if !configured then .ok ⟨none, false⟩
  else
    match import_tool_executor with
    | .error e => .error e
    | .ok _ => .ok (handle_message configured toolRes responder_output content)

/-! ## Concrete instances used by witnesses and counterexamples -/

/-- A concrete tool-payload environment. -/
def trivEnv : ToolEnv :=
  ⟨fun _ => ("web result").toList, fun _ _ => ("translated").toList,
   fun _ => ("summary").toList, fun _ => [], fun _ => ("answer").toList⟩

/-- A concrete roster: the AI plus one human member. -/
def zoeMembers : List RoomMember :=
  [⟨("ai").toList, ("Veya").toList⟩, ⟨("u1").toList, ("Alice").toList⟩]

/-- A `create_task` call whose assignee name matches no room member. -/
def zoeCreateArgs : ArgMap :=
  [(("title").toList, ("Ship the login page").toList),
   (("assignee_username").toList, ("Zoe").toList)]

/-- An executor script proposing the unresolvable-assignee `create_task`, then
stopping. -/
def zoeEvents : List (Except Unit ModelTurn) :=
  [.ok (.call (("create_task").toList) zoeCreateArgs), .ok .finished]

/-- An executor script that runs a web search, then stops. -/
def webEvents : List (Except Unit ModelTurn) :=
  [.ok (.call (("search_web").toList) [(("query").toList, ("rust").toList)]), .ok .finished]

/-- An executor script where a task is created and then a gateway turn raises. -/
def failEvents : List (Except Unit ModelTurn) :=
  [.ok (.call (("create_task").toList) [(("title").toList, ("T").toList)]), .error ()]

/-- An executor result consisting of a single reaction. -/
def reactionOnlyRes : ToolExecResult :=
  ⟨[⟨("reaction").toList, none, some (("👍").toList), some (("m1").toList)⟩], [],
   some (("👍").toList)⟩

/-- An empty room context. -/
def ctx0 : RoomContext := ⟨none, [], [], none, [], none, [], []⟩

/-- Invariant of the executor's accumulator: whenever `tool_data` is
non-empty, some executed tool entry is not a reaction (every `tool_data`
insertion in `trackTool` is paired with such an entry). -/
def DataImpliesNonreaction (acc : ToolExecResult) : Prop :=
  acc.tool_data ≠ [] → ∃ t ∈ acc.tools_executed, t.type ≠ ("reaction").toList

/-- An exact square-root oracle for the values arising in the similarity
counterexample (1 and 0). -/
def sq01 : ℚ → ℚ := fun q => if q = 1 then 1 else 0

/-- An exact square-root oracle for the values arising in the similarity
witness (25, 1 and 0). -/
def sq25 : ℚ → ℚ := fun q => if q = 25 then 5 else if q = 1 then 1 else 0

/-- A chunk whose embedding has negative cosine similarity against the
query `[1]`. -/
def negChunk : ChunkRec := ⟨("c1").toList, ("d1").toList, ("neg").toList, none, [-1]⟩

/-- A chunk carrying the zero-vector embedding-failure fallback. -/
def zeroChunk : ChunkRec := ⟨("c2").toList, ("d2").toList, ("zero").toList, none, [0]⟩

/-! # Helper lemmas -/

theorem exists_nonreaction_append (l : List ExecutedTool) (e : ExecutedTool)
    (h : (∃ t ∈ l, t.type ≠ ("reaction").toList) ∨ e.type ≠ ("reaction").toList) :
    ∃ t ∈ l ++ [e], t.type ≠ ("reaction").toList := by
  rcases h with ⟨t, ht, hty⟩ | h
  · exact ⟨t, List.mem_append_left _ ht, hty⟩
  · exact ⟨e, List.mem_append_right _ (List.mem_singleton_self e), h⟩

theorem exists_nonreaction_append_lit (l : List ExecutedTool) (ty : List Char)
    (d : Option ToolOutcome) (em mi : Option (List Char)) (hty : ty ≠ ("reaction").toList) :
    ∃ t ∈ l ++ [⟨ty, d, em, mi⟩], t.type ≠ ("reaction").toList :=
  ⟨⟨ty, d, em, mi⟩, List.mem_append_right _ (List.mem_singleton_self _), hty⟩

set_option maxHeartbeats 1000000 in
theorem trackTool_inv (mid name : List Char) (args : ArgMap) (res : ToolOutcome)
    (acc : ToolExecResult) (h : DataImpliesNonreaction acc) :
    DataImpliesNonreaction (trackTool mid name args res acc) := by
  unfold trackTool DataImpliesNonreaction
  unfold DataImpliesNonreaction at h
  split_ifs
  · exact fun _ => exists_nonreaction_append_lit _ _ _ _ _ (by decide)
  · exact h
  · exact fun _ => exists_nonreaction_append_lit _ _ _ _ _ (by decide)
  · exact h
  · exact fun hd => exists_nonreaction_append _ _ (Or.inl (h hd))
  · exact fun _ => exists_nonreaction_append_lit _ _ _ _ _ (by decide)
  · exact fun _ => exists_nonreaction_append_lit _ _ _ _ _ (by decide)
  · exact fun _ => exists_nonreaction_append_lit _ _ _ _ _ (by decide)
  · exact fun _ => exists_nonreaction_append_lit _ _ _ _ _ (by decide)
  · exact fun _ => exists_nonreaction_append_lit _ _ _ _ _ (by decide)
  · exact fun _ => exists_nonreaction_append_lit _ _ _ _ _ (by decide)
  · exact h

theorem toolLoop_inv (env : ToolEnv) (members : List RoomMember) (mid : List Char) :
    ∀ (events : List (Except Unit ModelTurn)) (db : List TaskRec) (acc : ToolExecResult),
    DataImpliesNonreaction acc →
    ∀ (db2 : List TaskRec) (res : ToolExecResult),
      toolLoop env members mid events db acc = (db2, .ok res) →
      DataImpliesNonreaction res := by
  intro events
  induction events with
  | nil =>
    intro db acc h db2 res heq
    simp only [toolLoop, Prod.mk.injEq] at heq
    obtain ⟨-, heq⟩ := heq
    cases heq
    exact h
  | cons ev rest ih =>
    intro db acc h db2 res heq
    cases ev with
    | error e => simp [toolLoop] at heq
    | ok turn =>
      cases turn with
      | finished =>
        simp only [toolLoop, Prod.mk.injEq] at heq
        obtain ⟨-, heq⟩ := heq
        cases heq
        exact h
      | call name args =>
        by_cases hname : name = ("no_action").toList
        · rw [toolLoop, if_pos hname] at heq
          simp only [Prod.mk.injEq] at heq
          obtain ⟨-, heq⟩ := heq
          cases heq
          exact trackTool_inv _ _ _ _ _ h
        · rw [toolLoop, if_neg hname] at heq
          exact ih _ _ (trackTool_inv _ _ _ _ _ h) _ _ heq

theorem execute_tools_inv (configured : Bool) (env : ToolEnv) (members : List RoomMember)
    (mid : List Char) (creation : ChatCreation) (events : List (Except Unit ModelTurn))
    (db : List TaskRec) :
    DataImpliesNonreaction (execute_tools configured env members mid creation events db).2 := by
  have hempty : DataImpliesNonreaction emptyExecResult := fun hd => absurd rfl hd
  cases configured with
  | false => exact hempty
  | true =>
    cases creation with
    | raised => exact hempty
    | returnedNone => exact hempty
    | ok =>
      unfold execute_tools
      rcases hL : toolLoop env members mid events db emptyExecResult with ⟨db2, r⟩
      cases r with
      | ok acc =>
        simpa [hL] using toolLoop_inv env members mid events db emptyExecResult hempty db2 acc hL
      | error u => simpa [hL] using hempty

theorem sgr_true_of_tool_data (content : List Char) (executed : List ExecutedTool)
    (tdata : List (List Char × ToolOutcome))
    (hd : tdata ≠ []) (hex : ∃ t ∈ executed, t.type ≠ ("reaction").toList) :
    should_generate_response content executed tdata = true := by
  obtain ⟨t, ht, hty⟩ := hex
  have hall : executed.all (fun t => t.type = ("reaction").toList) = false := by
    cases hall2 : executed.all (fun t => t.type = ("reaction").toList) with
    | false => rfl
    | true => exact absurd (by simpa using List.all_eq_true.mp hall2 t ht) hty
  have hd2 : tdata.isEmpty = false := by
    cases tdata with
    | nil => exact absurd rfl hd
    | cons a l => rfl
  unfold should_generate_response
  rw [hall, hd2]
  simp

theorem c5_create_step (env : ToolEnv) (members : List RoomMember)
    (mid title uname : List Char) (db : List TaskRec) (acc : ToolExecResult)
    (rest : List (Except Unit ModelTurn))
    (hu : uname ≠ [])
    (hz : find_member_by_username members uname = none) :
    execute_tool env members db (("create_task").toList)
        [(("title").toList, title), (("assignee_username").toList, uname)] =
      (db ++ [⟨some title, ("todo").toList, none, none⟩],
       .task ⟨some title, ("todo").toList, none, none⟩) ∧
    (ToolOutcome.task ⟨some title, ("todo").toList, none, none⟩).hasError = false ∧
    toolLoop env members mid
        (.ok (.call (("create_task").toList)
          [(("title").toList, title), (("assignee_username").toList, uname)]) :: rest) db acc =
      toolLoop env members mid rest (db ++ [⟨some title, ("todo").toList, none, none⟩])
        { acc with tools_executed := acc.tools_executed ++
            [⟨("task_created").toList,
              some (.task ⟨some title, ("todo").toList, none, none⟩), none, none⟩] } := by
  have hne : uname.isEmpty = false := by
    cases uname with
    | nil => exact absurd rfl hu
    | cons c l => rfl
  have hexec : execute_tool env members db (("create_task").toList)
      [(("title").toList, title), (("assignee_username").toList, uname)] =
      (db ++ [⟨some title, ("todo").toList, none, none⟩],
       .task ⟨some title, ("todo").toList, none, none⟩) := by
    unfold execute_tool resolve_assignee argsGetTruthy argsGet dictGet tool_create_task
    simp [List.find?, hne, hz]
  refine ⟨hexec, rfl, ?_⟩
  rw [toolLoop]
  rw [if_neg (by decide : ¬ ("create_task").toList = ("no_action").toList)]
  rw [hexec]
  have htrack : trackTool mid (("create_task").toList)
      [(("title").toList, title), (("assignee_username").toList, uname)]
      (.task ⟨some title, ("todo").toList, none, none⟩) acc =
      { acc with tools_executed := acc.tools_executed ++
          [⟨("task_created").toList,
            some (.task ⟨some title, ("todo").toList, none, none⟩), none, none⟩] } := by
    unfold trackTool
    rw [if_pos rfl]
    rfl
  rw [htrack]

theorem c5_update_step (env : ToolEnv) (members : List RoomMember)
    (mid q st : List Char) (db : List TaskRec) (acc : ToolExecResult)
    (rest : List (Except Unit ModelTurn))
    (hq : ∀ t ∈ db, titleMatches q t = false) :
    execute_tool env members db (("update_task").toList)
        [(("task_title").toList, q), (("status").toList, st)] =
      (db, .errTag (("Task not found").toList)) ∧
    (ToolOutcome.errTag (("Task not found").toList)).hasError = true ∧
    toolLoop env members mid
        (.ok (.call (("update_task").toList)
          [(("task_title").toList, q), (("status").toList, st)]) :: rest) db acc =
      toolLoop env members mid rest db acc := by
  have hfind : db.find? (titleMatches q) = none := by
    rw [List.find?_eq_none]
    intro t ht
    simp [hq t ht]
  have hexec : execute_tool env members db (("update_task").toList)
      [(("task_title").toList, q), (("status").toList, st)] =
      (db, .errTag (("Task not found").toList)) := by
    unfold execute_tool tool_update_task_by_title argsGet dictGet
    simp [List.find?, hfind]
  refine ⟨hexec, by decide, ?_⟩
  rw [toolLoop]
  rw [if_neg (by decide : ¬ ("update_task").toList = ("no_action").toList)]
  rw [hexec]
  have htrack : trackTool mid (("update_task").toList)
      [(("task_title").toList, q), (("status").toList, st)]
      (.errTag (("Task not found").toList)) acc = acc := by
    unfold trackTool
    rw [if_neg (by decide : ¬ ("update_task").toList = ("create_task").toList), if_pos rfl]
    rfl
  rw [htrack]

theorem dotProduct_nil (b : List ℚ) : dotProduct [] b = 0 := by cases b <;> simp [dotProduct]

theorem dotProduct_nil_right (a : List ℚ) : dotProduct a [] = 0 := by
  cases a <;> simp [dotProduct]

theorem dotProduct_cons (x y : ℚ) (xs ys : List ℚ) :
    dotProduct (x :: xs) (y :: ys) = x * y + dotProduct xs ys := by
  simp [dotProduct]

theorem dotProduct_comm (a b : List ℚ) : dotProduct a b = dotProduct b a := by
  induction a generalizing b with
  | nil => rw [dotProduct_nil, dotProduct_nil_right]
  | cons x xs ih =>
    cases b with
    | nil => rw [dotProduct_nil, dotProduct_nil_right]
    | cons y ys => rw [dotProduct_cons, dotProduct_cons, mul_comm, ih]

theorem dotProduct_self_nonneg (a : List ℚ) : 0 ≤ dotProduct a a := by
  induction a with
  | nil => simp [dotProduct]
  | cons x xs ih =>
    rw [dotProduct_cons]
    have := mul_self_nonneg x
    linarith

theorem dotProduct_self_eq_zero (a : List ℚ) : dotProduct a a = 0 ↔ ∀ x ∈ a, x = 0 := by
  induction a with
  | nil => simp [dotProduct]
  | cons x xs ih =>
    rw [dotProduct_cons]
    have hx := mul_self_nonneg x
    have hxs := dotProduct_self_nonneg xs
    constructor
    · intro h y hy
      have hx0 : x * x = 0 := by linarith
      have hxs0 : dotProduct xs xs = 0 := by linarith
      rcases List.mem_cons.mp hy with rfl | hy
      · exact mul_self_eq_zero.mp hx0
      · exact ih.mp hxs0 y hy
    · intro h
      have hx0 : x = 0 := h x (List.mem_cons_self _ _)
      have hxs0 : dotProduct xs xs = 0 := ih.mpr (fun y hy => h y (List.mem_cons_of_mem _ hy))
      rw [hx0, hxs0]
      ring

theorem cosine_comm (sq : ℚ → ℚ) (a b : List ℚ) :
    cosine_similarity sq a b = cosine_similarity sq b a := by
  unfold cosine_similarity
  rw [dotProduct_comm a b]
  split_ifs <;> first | rfl | tauto | rw [mul_comm]

theorem cosine_self (sq : ℚ → ℚ) (a : List ℚ)
    (h1 : sq (dotProduct a a) * sq (dotProduct a a) = dotProduct a a)
    (hx : ∃ x ∈ a, x ≠ 0) :
    cosine_similarity sq a a = 1 := by
  have hd : dotProduct a a ≠ 0 := by
    intro h0
    obtain ⟨x, hxm, hx0⟩ := hx
    exact hx0 ((dotProduct_self_eq_zero a).mp h0 x hxm)
  have hsq : sq (dotProduct a a) ≠ 0 := by
    intro h0
    rw [h0, mul_zero] at h1
    exact hd h1.symm
  unfold cosine_similarity
  rw [if_neg (by simp), if_neg (by simp [hsq]), h1, div_self hd]

theorem cosine_zero_vec (sq : ℚ → ℚ) (a b : List ℚ)
    (hz : ∀ x ∈ a, x = 0) (hsq0 : sq 0 = 0) :
    cosine_similarity sq a b = 0 ∧ cosine_similarity sq b a = 0 := by
  have hda : dotProduct a a = 0 := (dotProduct_self_eq_zero a).mpr hz
  constructor
  · unfold cosine_similarity
    split_ifs with h1 h2
    · rfl
    · rfl
    · exact absurd (Or.inl (by rw [hda, hsq0])) h2
  · unfold cosine_similarity
    split_ifs with h1 h2
    · rfl
    · rfl
    · exact absurd (Or.inr (by rw [hda, hsq0])) h2

theorem mem_insertDesc {α : Type} (key : α → ℚ) (x : α) (l : List α) (z : α) :
    z ∈ insertDesc key x l ↔ z = x ∨ z ∈ l := by
  induction l with
  | nil => simp [insertDesc]
  | cons y ys ih =>
    simp only [insertDesc]
    split_ifs
    · simp [List.mem_cons]
    · simp only [List.mem_cons, ih]
      tauto

theorem sorted_insertDesc {α : Type} (key : α → ℚ) (x : α) (l : List α)
    (h : l.Pairwise (fun u v => key v ≤ key u)) :
    (insertDesc key x l).Pairwise (fun u v => key v ≤ key u) := by
  induction l with
  | nil => simp [insertDesc]
  | cons y ys ih =>
    rcases List.pairwise_cons.mp h with ⟨hy, hys⟩
    simp only [insertDesc]
    split_ifs with hlt
    · refine List.pairwise_cons.mpr ⟨?_, h⟩
      intro z hz
      rcases List.mem_cons.mp hz with rfl | hz
      · exact le_of_lt hlt
      · exact le_trans (hy z hz) (le_of_lt hlt)
    · refine List.pairwise_cons.mpr ⟨?_, ih hys⟩
      intro z hz
      rcases (mem_insertDesc key x ys z).mp hz with rfl | hz
      · exact not_lt.mp hlt
      · exact hy z hz

theorem sorted_sortDesc {α : Type} (key : α → ℚ) (l : List α) :
    (sortDesc key l).Pairwise (fun u v => key v ≤ key u) := by
  suffices h : ∀ (m : List α) (acc : List α), acc.Pairwise (fun u v => key v ≤ key u) →
      (m.foldl (fun acc x => insertDesc key x acc) acc).Pairwise (fun u v => key v ≤ key u) by
    exact h l [] (by simp)
  intro m
  induction m with
  | nil => intro acc hacc; simpa using hacc
  | cons x xs ih => intro acc hacc; exact ih _ (sorted_insertDesc key x acc hacc)

theorem semantic_search_sorted (sq : ℚ → ℚ) (q : List ℚ) (chunks : List ChunkRec)
    (limit : ℕ) :
    (semantic_search sq q chunks limit).Pairwise (fun u v => v.similarity ≤ u.similarity) := by
  unfold semantic_search
  split_ifs
  · simp
  · exact (sorted_sortDesc _ _).sublist (List.take_sublist _ _)

theorem rfindGo_ge (text sep : List Char) (a hi : ℕ) :
    ∀ i j, rfindGo text sep a hi i = some j → a ≤ j := by
  intro i
  induction i with
  | zero =>
    intro j h
    rw [rfindGo] at h
    split_ifs at h with hc
    all_goals cases h
    all_goals exact hc.1
  | succ i ih =>
    intro j h
    rw [rfindGo] at h
    split_ifs at h with hc
    · cases h; exact hc.1
    · exact ih j h

theorem pyRfind_ge (text sep : List Char) (a b j : ℕ) (h : pyRfind text sep a b = some j) :
    a ≤ j := by
  unfold pyRfind at h
  exact rfindGo_ge text sep a _ _ j h

theorem adjustEndLoop_ge (text : List Char) (start e0 : ℕ) (seps : List (List Char))
    (hseps : ∀ sep ∈ seps, 1 ≤ sep.length)
    (he0 : start + 901 ≤ e0) :
    start + 901 ≤ adjustEndLoop text 1000 start e0 seps := by
  induction seps with
  | nil => simpa [adjustEndLoop] using he0
  | cons sep rest ih =>
    rw [adjustEndLoop]
    rcases hf : pyRfind text sep (start + 1000 - 100) e0 with _ | i
    · exact ih (fun s hs => hseps s (List.mem_cons_of_mem _ hs))
    · have hge : start + 1000 - 100 ≤ i := pyRfind_ge _ _ _ _ _ hf
      have hs1 : 1 ≤ sep.length := hseps sep (List.mem_cons_self _ _)
      show start + 901 ≤ if start < i then i + sep.length else adjustEndLoop text 1000 start e0 rest
      split_ifs with hlt
      · omega
      · exact ih (fun s hs => hseps s (List.mem_cons_of_mem _ hs))

theorem computeEnd_ge (text : List Char) (start : ℕ) :
    start + 901 ≤ computeEnd text 1000 start := by
  unfold computeEnd
  split_ifs with h
  · exact adjustEndLoop_ge text start (start + 1000) chunk_seps (by decide) (by omega)
  · omega

theorem reconTail_chunkWindows (text : List Char) :
    ∀ (fuel s : ℕ), text.length ≤ fuel + s →
    reconTail text 200 (chunkWindows text 1000 200 fuel s) = text.drop (s + 200) := by
  intro fuel
  induction fuel with
  | zero =>
    intro s hs
    rw [chunkWindows]
    have hnil : text.drop (s + 200) = [] := by
      apply List.drop_eq_nil_of_le
      omega
    rw [hnil]
    rfl
  | succ fuel ih =>
    intro s hs
    rw [chunkWindows]
    split_ifs with hlt
    · have hge : s + 901 ≤ computeEnd text 1000 s := computeEnd_ge text s
      simp only [reconTail, List.map_cons, List.flatten_cons]
      have htail : (List.map (fun v => (sliceW text v).drop 200)
          (chunkWindows text 1000 200 fuel (computeEnd text 1000 s - 200))).flatten =
          text.drop (computeEnd text 1000 s - 200 + 200) :=
        ih (computeEnd text 1000 s - 200) (by omega)
      rw [htail]
      have h1 : computeEnd text 1000 s - 200 + 200 = computeEnd text 1000 s := by omega
      rw [h1]
      show ((text.drop s).take (computeEnd text 1000 s - s)).drop 200 ++
        text.drop (computeEnd text 1000 s) = text.drop (s + 200)
      rw [List.drop_take, List.drop_drop]
      have h2 : computeEnd text 1000 s - s - 200 = computeEnd text 1000 s - (s + 200) := by omega
      rw [h2]
      have h3 : text.drop (computeEnd text 1000 s) =
          (text.drop (s + 200)).drop (computeEnd text 1000 s - (s + 200)) := by
        rw [List.drop_drop]
        have harith : s + 200 + (computeEnd text 1000 s - (s + 200)) = computeEnd text 1000 s := by
          omega
        rw [harith]
      rw [h3, List.take_append_drop]
    · rw [show reconTail text 200 [] = [] from rfl]
      have hnil : text.drop (s + 200) = [] := by
        apply List.drop_eq_nil_of_le
        omega
      rw [hnil]

/-! # Claim theorems -/

/-- C1: for every invocation of the Coordinator's handle_message in which the
Tool Executor executed tools and every executed tool is a reaction (the spec's
"the Tool Executor's only result is a reaction"), the Coordinator suppresses
text: the Chat Responder is never invoked and the returned result has null
content. -/
theorem C1_reaction_only_suppresses_text (toolRes : ToolExecResult)
    (out : Option (List Char)) (content : List Char)
    (hne : toolRes.tools_executed ≠ [])
    (hall : ∀ t ∈ toolRes.tools_executed, t.type = ("reaction").toList) :
    handle_message true toolRes out content =
      ⟨some ⟨none, toolRes.tools_executed, toolRes.reaction⟩, false⟩ := by
  have h1 : toolRes.tools_executed.isEmpty = false := by
    cases h : toolRes.tools_executed with
    | nil => exact absurd h hne
    | cons a l => rfl
  have h2 : toolRes.tools_executed.all (fun t => t.type = ("reaction").toList) = true := by
    rw [List.all_eq_true]
    intro t ht
    simpa using hall t ht
  have hsgr : should_generate_response content toolRes.tools_executed toolRes.tool_data
      = false := by
    unfold should_generate_response
    rw [h1, h2]
    rfl
  unfold handle_message
  rw [hsgr]
  rfl

/-- Witness for C1 at a concrete reaction-only executor result. -/
theorem C1_reaction_only_suppresses_text_witness :
    reactionOnlyRes.tools_executed ≠ [] ∧
    (∀ t ∈ reactionOnlyRes.tools_executed, t.type = ("reaction").toList) ∧
    handle_message true reactionOnlyRes (some (("hello").toList)) (("Great job team!").toList) =
      ⟨some ⟨none, reactionOnlyRes.tools_executed, reactionOnlyRes.reaction⟩, false⟩ :=
  ⟨by decide, by decide,
   C1_reaction_only_suppresses_text reactionOnlyRes _ _ (by decide) (by decide)⟩

/-- C2: for every invocation of handle_message in which the Tool Executor's
returned tool_data map is non-empty, the Coordinator requires a text response:
it invokes the Chat Responder and returns its output as content, even though
the reaction-only check is evaluated first (a non-empty tool_data always comes
with a non-reaction executed tool, so that check cannot fire). -/
theorem C2_tool_data_requires_text (env : ToolEnv) (members : List RoomMember)
    (mid : List Char) (creation : ChatCreation) (events : List (Except Unit ModelTurn))
    (db : List TaskRec) (out : Option (List Char)) (content : List Char)
    (h : (execute_tools true env members mid creation events db).2.tool_data ≠ []) :
    handle_message true (execute_tools true env members mid creation events db).2 out content =
      ⟨some ⟨out, (execute_tools true env members mid creation events db).2.tools_executed,
        (execute_tools true env members mid creation events db).2.reaction⟩, true⟩ := by
  have hex := execute_tools_inv true env members mid creation events db h
  have hsgr := sgr_true_of_tool_data content _ _ h hex
  unfold handle_message
  rw [hsgr]
  rfl

/-- Witness for C2: a run whose script executes a web search. -/
theorem C2_tool_data_requires_text_witness :
    (execute_tools true trivEnv zoeMembers (("m1").toList) .ok webEvents []).2.tool_data ≠ [] ∧
    handle_message true (execute_tools true trivEnv zoeMembers (("m1").toList) .ok webEvents []).2
        (some (("Here you go").toList)) (("search rust").toList) =
      ⟨some ⟨some (("Here you go").toList),
        (execute_tools true trivEnv zoeMembers (("m1").toList) .ok webEvents []).2.tools_executed,
        (execute_tools true trivEnv zoeMembers (("m1").toList) .ok webEvents []).2.reaction⟩,
       true⟩ :=
  ⟨by decide,
   C2_tool_data_requires_text trivEnv zoeMembers (("m1").toList) .ok webEvents [] _ _ (by decide)⟩

/-- C3: every model conversation opened by the Chat Responder's
generate_response is created with no tool definitions (its create_chat call
passes tools=None, and create_chat then puts no tools into the chat config),
so no tool can be invoked from this second model call. -/
theorem C3_responder_chat_has_no_tools (configured : Bool) (ctx : RoomContext)
    (tr : List ExecutedTool) (req : ChatSessionArgs)
    (h : generate_response_chatArgs configured ctx tr = some req) :
    req.config.tools = none := by
  cases configured with
  | false => simp [generate_response_chatArgs] at h
  | true =>
    simp only [generate_response_chatArgs, create_chat, Bool.not_true, Bool.false_eq_true,
      if_false, Option.some.injEq] at h
    subst h
    rfl

/-- Witness for C3 at a concrete room context. -/
theorem C3_responder_chat_has_no_tools_witness :
    ∃ req, generate_response_chatArgs true ctx0 [] = some req ∧ req.config.tools = none :=
  ⟨_, rfl, C3_responder_chat_has_no_tools true ctx0 [] _ rfl⟩

/-- C4: whenever a gateway-level call fails inside execute_tools — chat
creation raised or returned no session, or any model turn raised — the
executor returns exactly the empty result set (tools_executed = [],
tool_data = empty, reaction = null); by construction it returns a value and
never propagates the exception. -/
theorem C4_gateway_failure_returns_empty (env : ToolEnv) (members : List RoomMember)
    (mid : List Char) (creation : ChatCreation) (events : List (Except Unit ModelTurn))
    (db : List TaskRec)
    (h : creation ≠ ChatCreation.ok ∨
      (toolLoop env members mid events db emptyExecResult).2 = .error ()) :
    (execute_tools true env members mid creation events db).2 = emptyExecResult := by
  cases creation with
  | raised => simp [execute_tools]
  | returnedNone => simp [execute_tools]
  | ok =>
    rcases h with h | h
    · exact absurd rfl h
    · rcases hL : toolLoop env members mid events db emptyExecResult with ⟨db2, r⟩
      rw [hL] at h
      simp only at h
      subst h
      simp [execute_tools, hL]

/-- Witness for C4: a script that creates a task and then hits a raising
gateway turn still yields the empty result set, not a partial one. -/
theorem C4_gateway_failure_returns_empty_witness :
    (toolLoop trivEnv zoeMembers (("m1").toList) failEvents [] emptyExecResult).2 = .error () ∧
    (execute_tools true trivEnv zoeMembers (("m1").toList) .ok failEvents []).2 =
      emptyExecResult :=
  ⟨rfl, C4_gateway_failure_returns_empty trivEnv zoeMembers (("m1").toList) .ok failEvents []
    (Or.inr rfl)⟩

/-- C5 counterexample: an assignee name matching no room member does NOT yield
an error-tagged result — the executor silently drops the assignee, the task is
created anyway, and the run records a successful task_created entry with no
error tag. -/
theorem C5_unresolvable_assignee_not_error_tagged_cex :
    find_member_by_username zoeMembers (("Zoe").toList) = none ∧
    (execute_tools true trivEnv zoeMembers (("m1").toList) .ok zoeEvents []).2.tools_executed =
      [⟨("task_created").toList,
        some (.task ⟨some (("Ship the login page").toList), ("todo").toList, none, none⟩),
        none, none⟩] ∧
    (∀ t ∈ (execute_tools true trivEnv zoeMembers (("m1").toList) .ok zoeEvents
        []).2.tools_executed,
      (t.data.getD .pyNone).hasError = false) :=
  ⟨by decide, by decide, by decide⟩

/-- C5 amended: a create_task call with an unresolvable assignee name is not
error-tagged — the assignee is silently dropped and the task is still created
(recorded as task_created); an update_task call whose title matches no task
yields an error-tagged result for that call only and nothing is recorded; in
both cases the negotiation loop continues with the remaining calls of the same
run. -/
theorem C5_bad_call_scoped_loop_continues :
    (∀ (env : ToolEnv) (members : List RoomMember) (mid title uname : List Char)
       (db : List TaskRec) (acc : ToolExecResult) (rest : List (Except Unit ModelTurn)),
      uname ≠ [] →
      find_member_by_username members uname = none →
      execute_tool env members db (("create_task").toList)
          [(("title").toList, title), (("assignee_username").toList, uname)] =
        (db ++ [⟨some title, ("todo").toList, none, none⟩],
         .task ⟨some title, ("todo").toList, none, none⟩) ∧
      (ToolOutcome.task ⟨some title, ("todo").toList, none, none⟩).hasError = false ∧
      toolLoop env members mid
          (.ok (.call (("create_task").toList)
            [(("title").toList, title), (("assignee_username").toList, uname)]) :: rest)
          db acc =
        toolLoop env members mid rest (db ++ [⟨some title, ("todo").toList, none, none⟩])
          { acc with tools_executed := acc.tools_executed ++
              [⟨("task_created").toList,
                some (.task ⟨some title, ("todo").toList, none, none⟩), none, none⟩] }) ∧
    (∀ (env : ToolEnv) (members : List RoomMember) (mid q st : List Char)
       (db : List TaskRec) (acc : ToolExecResult) (rest : List (Except Unit ModelTurn)),
      (∀ t ∈ db, titleMatches q t = false) →
      execute_tool env members db (("update_task").toList)
          [(("task_title").toList, q), (("status").toList, st)] =
        (db, .errTag (("Task not found").toList)) ∧
      (ToolOutcome.errTag (("Task not found").toList)).hasError = true ∧
      toolLoop env members mid
          (.ok (.call (("update_task").toList)
            [(("task_title").toList, q), (("status").toList, st)]) :: rest) db acc =
        toolLoop env members mid rest db acc) :=
  ⟨c5_create_step, c5_update_step⟩

/-- Witness for C5 at concrete inputs: the unresolvable assignee "Zoe" and an
update for a title no task carries. -/
theorem C5_bad_call_scoped_loop_continues_witness :
    (("Zoe").toList ≠ [] ∧ find_member_by_username zoeMembers (("Zoe").toList) = none) ∧
    (execute_tool trivEnv zoeMembers [] (("create_task").toList)
        [(("title").toList, ("T").toList), (("assignee_username").toList, ("Zoe").toList)] =
      ([] ++ [⟨some (("T").toList), ("todo").toList, none, none⟩],
       .task ⟨some (("T").toList), ("todo").toList, none, none⟩) ∧
     (ToolOutcome.task ⟨some (("T").toList), ("todo").toList, none, none⟩).hasError = false ∧
     toolLoop trivEnv zoeMembers (("m1").toList)
        (.ok (.call (("create_task").toList)
          [(("title").toList, ("T").toList), (("assignee_username").toList, ("Zoe").toList)])
          :: [.ok .finished]) [] emptyExecResult =
       toolLoop trivEnv zoeMembers (("m1").toList) [.ok .finished]
         ([] ++ [⟨some (("T").toList), ("todo").toList, none, none⟩])
         { emptyExecResult with tools_executed := emptyExecResult.tools_executed ++
             [⟨("task_created").toList,
               some (.task ⟨some (("T").toList), ("todo").toList, none, none⟩), none, none⟩] }) ∧
    (execute_tool trivEnv zoeMembers [] (("update_task").toList)
        [(("task_title").toList, ("nonexistent").toList),
         (("status").toList, ("done").toList)] =
      ([], .errTag (("Task not found").toList)) ∧
     (ToolOutcome.errTag (("Task not found").toList)).hasError = true ∧
     toolLoop trivEnv zoeMembers (("m1").toList)
        (.ok (.call (("update_task").toList)
          [(("task_title").toList, ("nonexistent").toList),
           (("status").toList, ("done").toList)]) :: [.ok .finished]) [] emptyExecResult =
       toolLoop trivEnv zoeMembers (("m1").toList) [.ok .finished] [] emptyExecResult) :=
  ⟨⟨by decide, by decide⟩,
   C5_bad_call_scoped_loop_continues.1 trivEnv zoeMembers (("m1").toList) (("T").toList)
     (("Zoe").toList) [] emptyExecResult [.ok .finished] (by decide) (by decide),
   C5_bad_call_scoped_loop_continues.2 trivEnv zoeMembers (("m1").toList)
     (("nonexistent").toList) (("done").toList) [] emptyExecResult [.ok .finished]
     (by decide)⟩

/-- C6: evaluation of the code at the failing input.  A transient "503
overloaded" failure of a generate_response gateway call is classified
retryable and the retry helper defined alongside it would make 3 attempts —
but generate_response itself makes exactly one API call and returns the
apology fallback without any retry, because no call site uses
retry_with_backoff; a non-transient error would not be retried anywhere. -/
theorem C6_transient_error_not_retried_at_call_site :
    is_retryable_error transient_err = true ∧
    is_retryable_error permanent_err = false ∧
    MAX_RETRIES = 3 ∧
    generate_response true (.error transient_err) = ⟨overloaded_apology transient_err, 1⟩ ∧
    (retry_with_backoff (fun _ => (.error transient_err : Except (List Char) Unit))
      (fun _ => 0)).calls = 3 ∧
    (retry_with_backoff (fun _ => (.error permanent_err : Except (List Char) Unit))
      (fun _ => 0)).calls = 1 :=
  ⟨by decide, by decide, rfl, rfl, by decide, by decide⟩

/-- C7: a message with fewer than 3 whitespace-separated words on which no
deterministic trigger rule fires is declined by the Classifier — should_respond
returns false and the model gateway fallback is never consulted. -/
theorem C7_short_untriggered_message_declined_without_llm (llm : Bool) (content : List Char)
    (hrules : any_trigger_rule_fires content = false)
    (hlen : (pyWords content).length < 3) :
    should_respond llm content = ⟨false, false⟩ := by
  unfold any_trigger_rule_fires at hrules
  simp only [Bool.or_eq_false_iff] at hrules
  obtain ⟨⟨⟨⟨h1, h2⟩, h3⟩, h4⟩, h5⟩ := hrules
  unfold should_respond check_rules
  rw [h1, h2, h3, h4, h5]
  simp [hlen]

/-- Witness for C7 at the concrete two-word message "ok thanks". -/
theorem C7_short_untriggered_message_declined_without_llm_witness :
    any_trigger_rule_fires (("ok thanks").toList) = false ∧
    (pyWords (("ok thanks").toList)).length < 3 ∧
    should_respond true (("ok thanks").toList) = ⟨false, false⟩ :=
  ⟨by decide, by decide,
   C7_short_untriggered_message_declined_without_llm true _ (by decide) (by decide)⟩

/-- C8: with the configured window size 1000 and overlap 200, the chunker's
windows start at 0, each later window starts exactly 200 characters before the
previous window's (boundary-adjusted) end, and concatenating the window slices
with the 200-character overlap dropped from every window after the first
reconstructs the page text exactly; the emitted chunks are precisely the
stripped, non-blank window slices (so chunk texts differ from the covering
slices only by boundary whitespace). -/
theorem C8_chunking_reconstructs_text (text : List Char) (hlen : 1000 < text.length) :
    reconstructed text 200 (chunkWindows text 1000 200 (text.length + 1) 0) = text ∧
    chunk_text text 1000 200 =
      ((chunkWindows text 1000 200 (text.length + 1) 0).map
        (fun w => pyStripL (sliceW text w))).filter (fun c => ¬ c.isEmpty) := by
  constructor
  · rw [chunkWindows, if_pos (by omega : 0 < text.length)]
    rw [reconstructed]
    rw [reconTail_chunkWindows text text.length (computeEnd text 1000 0 - 200)
      (by have := computeEnd_ge text 0; omega)]
    have hge := computeEnd_ge text 0
    have h1 : computeEnd text 1000 0 - 200 + 200 = computeEnd text 1000 0 := by omega
    rw [h1]
    show (text.drop 0).take (computeEnd text 1000 0 - 0) ++
      text.drop (computeEnd text 1000 0) = text
    rw [List.drop_zero, Nat.sub_zero]
    exact List.take_append_drop _ _
  · unfold chunk_text
    rw [if_neg (by omega)]

/-- Witness for C8 at a concrete 1005-character page text. -/
theorem C8_chunking_reconstructs_text_witness :
    1000 < (List.replicate 1005 'a').length ∧
    reconstructed (List.replicate 1005 'a') 200
      (chunkWindows (List.replicate 1005 'a') 1000 200
        ((List.replicate 1005 'a').length + 1) 0) =
      List.replicate 1005 'a' :=
  ⟨by rw [List.length_replicate]; omega,
   (C8_chunking_reconstructs_text (List.replicate 1005 'a')
     (by rw [List.length_replicate]; omega)).1⟩

/-- C9 counterexample: zero-vector chunks do not sort last.  Against the query
embedding [1], a chunk embedded [-1] has similarity -1 while the zero-vector
chunk has similarity 0, so descending order puts the zero-vector chunk FIRST,
ahead of the negative-similarity chunk. -/
theorem C9_zero_vector_sorts_first_cex :
    semantic_search sq01 [1] [negChunk, zeroChunk] 5 =
      [⟨("c2").toList, ("d2").toList, ("zero").toList, none, 0⟩,
       ⟨("c1").toList, ("d1").toList, ("neg").toList, none, -1⟩] := by
  have h1 : cosine_similarity sq01 [1] [-1] = -1 := by
    unfold cosine_similarity sq01
    norm_num [dotProduct]
  have h2 : cosine_similarity sq01 [1] [0] = 0 := by
    unfold cosine_similarity sq01
    norm_num [dotProduct]
  unfold semantic_search negChunk zeroChunk
  simp only [List.isEmpty_cons, List.filter, List.map, h1, h2]
  norm_num [sortDesc, insertDesc]

/-- C9 amended: cosine similarity is symmetric; self-similarity is exactly 1
for any non-zero embedding (given an exact square root of the self dot
product); a zero vector on either side gives similarity 0 with no division by
zero; and semantic_search returns hits in descending similarity order — so a
zero-vector chunk never outranks any positive-similarity chunk, though it
sorts above negative-similarity chunks rather than strictly last. -/
theorem C9_cosine_properties :
    (∀ (sq : ℚ → ℚ) (a b : List ℚ), cosine_similarity sq a b = cosine_similarity sq b a) ∧
    (∀ (sq : ℚ → ℚ) (a : List ℚ),
      sq (dotProduct a a) * sq (dotProduct a a) = dotProduct a a →
      (∃ x ∈ a, x ≠ 0) → cosine_similarity sq a a = 1) ∧
    (∀ (sq : ℚ → ℚ) (a b : List ℚ), (∀ x ∈ a, x = 0) → sq 0 = 0 →
      cosine_similarity sq a b = 0 ∧ cosine_similarity sq b a = 0) ∧
    (∀ (sq : ℚ → ℚ) (q : List ℚ) (chunks : List ChunkRec) (limit : ℕ),
      (semantic_search sq q chunks limit).Pairwise
        (fun u v => v.similarity ≤ u.similarity)) ∧
    (∀ (sq : ℚ → ℚ) (q : List ℚ) (chunks : List ChunkRec) (limit : ℕ),
      (semantic_search sq q chunks limit).Pairwise
        (fun u v => 0 < v.similarity → 0 < u.similarity)) :=
  ⟨cosine_comm, cosine_self, cosine_zero_vec, semantic_search_sorted,
   fun sq q chunks limit => (semantic_search_sorted sq q chunks limit).imp
     (fun h hv => lt_of_lt_of_le hv h)⟩

/-- Witness for C9 at concrete vectors: self-similarity 1 for [3,4] with exact
root 5 of 25, symmetry at [1] and [-1], and the zero-vector cases. -/
theorem C9_cosine_properties_witness :
    cosine_similarity sq25 [3, 4] [3, 4] = 1 ∧
    cosine_similarity sq25 [1] [-1] = cosine_similarity sq25 [-1] [1] ∧
    (cosine_similarity sq25 [0, 0] [3, 4] = 0 ∧ cosine_similarity sq25 [3, 4] [0, 0] = 0) :=
  ⟨C9_cosine_properties.2.1 sq25 [3, 4] (by norm_num [dotProduct, sq25])
     ⟨3, by norm_num, by norm_num⟩,
   C9_cosine_properties.1 sq25 [1] [-1],
   C9_cosine_properties.2.2.1 sq25 [0, 0] [3, 4]
     (by intro x hx; simp at hx; rcases hx with rfl | rfl <;> rfl)
     (by norm_num [sq25])⟩

/-- C10: evaluation of the code at the failing input.  With the gateway
configured, handle_message reaches its lazy import of the tool-executor
module, whose own import list asks app.ai.tools for tool_ask_documents (and
three more functions) that the module does not define — so an ImportError
escapes the public entry point; only the unconfigured path returns a value
(null). -/
theorem C10_handle_message_raises_import_error :
    handle_message_entry true emptyExecResult none (("hello").toList) =
      .error (("ImportError: cannot import name tool_ask_documents").toList) ∧
    handle_message_entry false emptyExecResult none (("hello").toList) = .ok ⟨none, false⟩ :=
  ⟨rfl, rfl⟩
